import Mathlib

/-!
Verification of the `DatabaseClient` connection-resolution and query-execution
logic of mcp-server-motherduck (`src/mcp_server_motherduck/database.py`).

The embedded database engine (`duckdb`) is modelled as an oracle (`Backend`)
that decides, for every connection attempt, statement execution and result
fetch, whether the operation succeeds or raises, and with which message.
Every interaction with the engine is recorded in an event trace, so that
claims about which connections are opened, with which options, and whether
they are closed, become statements about the trace.

Python strings are `String`, Python `None`-able strings are `Option String`,
Python truthiness of strings (`None` and `""` falsy) is `truthy`, exceptions
are the `.error` side of `Except String`.
-/

namespace MotherDuck

/-- Python `s.startswith(p)`: `p` is a prefix of `s`, on the character list. -/
def pyStartswith (s p : String) : Bool := p.toList.isPrefixOf s.toList

/-- Python truthiness of an optional string: `None` and `""` are falsy. -/
def truthy : Option String → Bool
  | none => false
  | some s => s != ""

/-- Substring occurrence on character lists (Python `pat in s`). -/
def listInfixOf : List Char → List Char → Bool
  | pat, [] => pat.isEmpty
  | pat, a :: as => pat.isPrefixOf (a :: as) || listInfixOf pat as

/-- Python `pat in s` for strings. -/
def strContains (s pat : String) : Bool := listInfixOf pat.toList s.toList

/-- Modelled from the spec: `SERVER_VERSION`, imported by `database.py` from
`.configs`, a module not present in the sources; the spec only requires it to
be the fixed running version embedded in the client identifier. -/
def SERVER_VERSION : String := "0.0.0"

/-- The `custom_user_agent` value `f"mcp-server-motherduck/{SERVER_VERSION}"`
passed in the `config` of `duckdb.connect` calls. -/
def clientUserAgent : String := "mcp-server-motherduck/" ++ SERVER_VERSION

/-- The `Literal["duckdb", "motherduck", "s3"]` database type. -/
inductive DBType
  | duckdb
  | motherduck
  | s3
  deriving DecidableEq, Repr

/-- Observable interactions with the embedded engine and the process
environment. `connect` records the address, the `custom_user_agent` config
entry (`none` when no config is passed) and the `read_only` flag of a
`duckdb.connect` call; `exec` a statement run on the connection at the given
address; `close` a `conn.close()`; `setHome` a write to `os.environ["HOME"]`. -/
inductive Event
  | connect (addr : String) (userAgent : Option String) (readOnly : Bool)
  | exec (addr : String) (sql : String)
  | close (addr : String)
  | setHome (value : String)
  deriving DecidableEq, Repr

/-- The oracle standing for the `duckdb` engine: for each operation it
decides success (`none`) or the message of the raised exception (`some msg`),
and the tabulated output text of a successful fetch. -/
structure Backend where
  connectErr : String → Option String → Bool → Option String
  execErr : String → String → Option String
  fetchErr : String → String → Option String
  fetchOut : String → String → String

/-- Outcome of a code fragment: a result or a raised exception, together with
the trace of engine/environment events it performed. -/
abbrev TraceResult (α : Type) := Except String α × List Event

/-- Sequencing of fragments: on an exception the continuation never runs
(Python exception propagation); traces accumulate. -/
def andThen {α β : Type} (x : TraceResult α) (f : α → TraceResult β) :
    TraceResult β :=
  match x with
  | (.ok a, tr) =>
    let r := f a
    (r.1, tr ++ r.2)
  | (.error e, tr) => (.error e, tr)

/-- `duckdb.connect(addr, config=..., read_only=...)`. -/
def pConnect (b : Backend) (addr : String) (userAgent : Option String)
    (readOnly : Bool) : TraceResult Unit :=
  (match b.connectErr addr userAgent readOnly with
   | some e => .error e
   | none => .ok (), [Event.connect addr userAgent readOnly])

/-- `conn.execute(sql)` on the connection at `addr`. -/
def pExec (b : Backend) (addr sql : String) : TraceResult Unit :=
  (match b.execErr addr sql with
   | some e => .error e
   | none => .ok (), [Event.exec addr sql])

/-- `q.fetchall()` / `q.description` / `tabulate`: either raises or yields the
formatted table text for the statement last run on `addr`. -/
def pFetch (b : Backend) (addr sql : String) : TraceResult String :=
  (match b.fetchErr addr sql with
   | some e => .error e
   | none => .ok (b.fetchOut addr sql), [])

/-- `conn.close()`. -/
def pClose (addr : String) : TraceResult Unit := (.ok (), [Event.close addr])

/-- The bare `try: ... except: pass` of the extension install: any exception
is discarded, the events remain. -/
def swallow (x : TraceResult Unit) : TraceResult Unit := (.ok (), x.2)

/-- The address of `duckdb.connect(':memory:')`. -/
def memAddr : String := ":memory:"

def selectOneSql : String := "SELECT 1"

def installHttpfsSql : String := "INSTALL httpfs;"

def loadHttpfsSql : String := "LOAD httpfs;"

def useS3dbSql : String := "USE s3db;"

/-- `f"ATTACH '{self.db_path}' AS s3db (READ_ONLY);"`. -/
def attachReadOnlySql (p : String) : String :=
  "ATTACH '" ++ p ++ "' AS s3db (READ_ONLY);"

/-- `f"ATTACH '{self.db_path}' AS s3db;"` (the create-on-retry variant). -/
def attachWriteSql (p : String) : String := "ATTACH '" ++ p ++ "' AS s3db;"

/-- The `CREATE SECRET IF NOT EXISTS s3_secret (...)` statement built from the
AWS credentials and region. -/
def createSecretSql (key secret region : String) : String :=
  "CREATE SECRET IF NOT EXISTS s3_secret (TYPE S3, KEY_ID '" ++ key ++
    "', SECRET '" ++ secret ++ "', REGION '" ++ region ++ "');"

/-- The error message of `ValueError` raised when an `md:` path has no token. -/
def tokenErrMsg : String :=
  "Please set the `motherduck_token` as an environment variable or pass it as an argument with `--motherduck-token` when using `md:` as db_path."

def s3ReadOnlyErrMsg : String := "Read-only mode is not supported for S3 databases"

/-- The prefix prepended by `DatabaseClient.query` when wrapping an execution
failure (`ValueError(f"❌ Error executing query: {e}")`). -/
def queryErrorHeader : String := "❌ Error executing query: "

/-- `DatabaseClient._resolve_db_path_type(db_path, motherduck_token, saas_mode)`.
`env_motherduck_token` is `os.getenv("motherduck_token")`. -/
def resolve_db_path_type (db_path : String) (motherduck_token : Option String)
    (env_motherduck_token : Option String) (saas_mode : Bool) :
    Except String (String × DBType) :=
  if pyStartswith db_path "s3://" then .ok (db_path, .s3)
  else if pyStartswith db_path "md:" then
    if truthy motherduck_token then
      if saas_mode then
        .ok (db_path ++ "?motherduck_token=" ++ motherduck_token.getD "" ++
              "&saas_mode=true", .motherduck)
      else
        .ok (db_path ++ "?motherduck_token=" ++ motherduck_token.getD "",
              .motherduck)
    else if truthy env_motherduck_token then
      .ok (db_path ++ "?motherduck_token=" ++ env_motherduck_token.getD "",
            .motherduck)
    else .error tokenErrMsg
  else if db_path = ":memory:" then .ok (db_path, .duckdb)
  else .ok (db_path, .duckdb)

/-- The `try`/`except` around `ATTACH ... (READ_ONLY);` + `USE s3db;`
(lines 94-117): on an exception whose text contains
`"database does not exist"`, when read-only was not requested, retry the
attach without the read-only qualifier and switch to it; any other failure
(or any failure of the retry) propagates. -/
def s3AttachBlock (b : Backend) (db_path : String) (read_only : Bool) :
    TraceResult Unit :=
  match andThen (pExec b memAddr (attachReadOnlySql db_path))
      (fun _ => pExec b memAddr useS3dbSql) with
  | (.ok _, tr) => (.ok (), tr)
  | (.error e, tr) =>
    if strContains e "database does not exist" && !read_only then
      match andThen (pExec b memAddr (attachWriteSql db_path))
          (fun _ => pExec b memAddr useS3dbSql) with
      | (.ok _, tr2) => (.ok (), tr ++ tr2)
      | (.error e2, tr2) => (.error e2, tr ++ tr2)
    else (.error e, tr)

/-- `DatabaseClient._initialize_connection`. The result is the connection
handle: `none` for the discarded local read-only validation connection,
`some addr` for a persistent connection at `addr`. The AWS credential
arguments are `os.environ.get` of `AWS_ACCESS_KEY_ID`, `AWS_SECRET_ACCESS_KEY`
and `AWS_DEFAULT_REGION`. -/
def initialize_connection (b : Backend) (db_path : String) (db_type : DBType)
    (read_only : Bool)
    (aws_access_key aws_secret_key aws_region : Option String) :
    TraceResult (Option String) :=
  if db_type = .s3 && read_only then
    (.error s3ReadOnlyErrMsg, [])
  else if db_type = .duckdb && read_only then
    andThen (pConnect b db_path (some clientUserAgent) read_only) fun _ =>
    andThen (pExec b db_path selectOneSql) fun _ =>
    andThen (pClose db_path) fun _ =>
    (.ok none, [])
  else if db_type = .s3 then
    andThen (pConnect b memAddr none false) fun _ =>
    andThen (swallow (pExec b memAddr installHttpfsSql)) fun _ =>
    andThen (pExec b memAddr loadHttpfsSql) fun _ =>
    andThen (if truthy aws_access_key && truthy aws_secret_key then
        pExec b memAddr (createSecretSql (aws_access_key.getD "")
          (aws_secret_key.getD "") (aws_region.getD "us-east-1"))
      else (.ok (), [])) fun _ =>
    andThen (s3AttachBlock b db_path read_only) fun _ =>
    (.ok (some memAddr), [])
  else
    andThen (pConnect b db_path (some clientUserAgent) read_only) fun _ =>
    (.ok (some db_path), [])

/-- `DatabaseClient._execute(query)`: with an absent handle, open a
short-lived connection against the resolved path, run, fetch, close, return;
with a persistent handle, run and fetch on it. There is no `finally`: the
close of the short-lived connection happens only on the success path. -/
def execute (b : Backend) (conn : Option String) (db_path : String)
    (read_only : Bool) (query_str : String) : TraceResult String :=
  match conn with
  | none =>
    andThen (pConnect b db_path (some clientUserAgent) read_only) fun _ =>
    andThen (pExec b db_path query_str) fun _ =>
    andThen (pFetch b db_path query_str) fun out =>
    andThen (pClose db_path) fun _ =>
    (.ok out, [])
  | some addr =>
    andThen (pExec b addr query_str) fun _ =>
    andThen (pFetch b addr query_str) fun out =>
    (.ok out, [])

/-- `DatabaseClient.query(query)`: any exception from `_execute` is re-raised
as `ValueError(f"❌ Error executing query: {e}")`. -/
def query (b : Backend) (conn : Option String) (db_path : String)
    (read_only : Bool) (query_str : String) : TraceResult String :=
  match execute b conn db_path read_only query_str with
  | (.ok out, tr) => (.ok out, tr)
  | (.error e, tr) => (.error (queryErrorHeader ++ e), tr)

/-- The state held by a constructed `DatabaseClient`. -/
structure ClientState where
  db_path : String
  db_type : DBType
  conn : Option String
  read_only : Bool
  deriving DecidableEq, Repr

/-- Outcome of running `DatabaseClient.__init__`: the constructed state or the
raised exception, the final value of `os.environ["HOME"]`, and the trace. -/
structure InitOutcome where
  result : Except String ClientState
  homeAfter : Option String
  trace : List Event
  deriving Repr

/-- `DatabaseClient.__init__(db_path, motherduck_token, home_dir, saas_mode,
read_only)`: resolve the path, then (`if home_dir:`) overwrite
`os.environ["HOME"]`, then initialize the connection. `env_HOME` is the value
of `os.environ["HOME"]` on entry; nothing ever restores it. -/
def clientInit (b : Backend) (db_path : String)
    (motherduck_token : Option String) (home_dir : Option String)
    (saas_mode : Bool) (read_only : Bool)
    (env_motherduck_token : Option String) (env_HOME : Option String)
    (aws_access_key aws_secret_key aws_region : Option String) : InitOutcome :=
  match resolve_db_path_type db_path motherduck_token env_motherduck_token
      saas_mode with
  | .error e => ⟨.error e, env_HOME, []⟩
  | .ok (addr, ty) =>
    let newHome := if truthy home_dir then home_dir else env_HOME
    let pre : List Event :=
      if truthy home_dir then [Event.setHome (home_dir.getD "")] else []
    match initialize_connection b addr ty read_only aws_access_key
        aws_secret_key aws_region with
    | (.ok conn, tr) => ⟨.ok ⟨addr, ty, conn, read_only⟩, newHome, pre ++ tr⟩
    | (.error e, tr) => ⟨.error e, newHome, pre ++ tr⟩

/-! ### Helper lemmas -/

theorem isPrefixOf_self (l : List Char) : l.isPrefixOf l = true := by
  induction l with
  | nil => rfl
  | cons a as ih => simp [List.isPrefixOf, ih]

theorem listInfixOf_append (pat pre : List Char) :
    listInfixOf pat (pre ++ pat) = true := by
  induction pre with
  | nil =>
    cases pat with
    | nil => rfl
    | cons a as => simp [listInfixOf, isPrefixOf_self]
  | cons a pre ih => simp [listInfixOf, ih]

theorem strContains_append_self (pre s : String) :
    strContains (pre ++ s) s = true := by
  simp [strContains]
  exact listInfixOf_append s.data pre.data

/-- A string starting with `"md:"` does not start with `"s3://"`. -/
theorem md_prefix_not_s3 (p : String) (h : pyStartswith p "md:" = true) :
    pyStartswith p "s3://" = false := by
  unfold pyStartswith at h ⊢
  cases hl : p.toList with
  | nil => rw [hl] at h; simp [List.isPrefixOf] at h
  | cons a as =>
    rw [hl] at h
    simp [List.isPrefixOf] at h ⊢
    intro hs
    exact absurd (h.1.trans hs.symm) (by decide)

theorem queryErrorHeader_append_ne (e : String) : queryErrorHeader ++ e ≠ e := by
  intro hcontra
  have hlen := congrArg String.length hcontra
  rw [String.length_append] at hlen
  have : queryErrorHeader.length = 0 := by omega
  exact absurd this (by decide)

/-- Membership in the trace of a sequenced fragment comes from the first
fragment or from the continuation at some value. -/
theorem mem_andThen {α β : Type} {e : Event} {x : TraceResult α}
    {f : α → TraceResult β} (h : e ∈ (andThen x f).2) :
    e ∈ x.2 ∨ ∃ a, e ∈ (f a).2 := by
  rcases x with ⟨r, tr⟩
  cases r with
  | ok a =>
    simp [andThen] at h
    rcases h with h | h
    · exact Or.inl h
    · exact Or.inr ⟨a, h⟩
  | error err =>
    simp [andThen] at h
    exact Or.inl h

/-! ### Concrete backends used by witnesses and counterexamples -/

/-- A backend on which every operation succeeds. -/
def okBackend : Backend where
  connectErr := fun _ _ _ => none
  execErr := fun _ _ => none
  fetchErr := fun _ _ => none
  fetchOut := fun _ _ => "table"

/-- A backend where the read-only attach of the s3 database fails with a
missing-database message and everything else succeeds. -/
def s3MissingBackend : Backend where
  connectErr := fun _ _ _ => none
  execErr := fun _ sql =>
    if sql = attachReadOnlySql "s3://bucket/db.duckdb" then
      some "IO Error: database does not exist"
    else none
  fetchErr := fun _ _ => none
  fetchOut := fun _ _ => "table"

/-- A backend where installing the httpfs extension fails with a message
unrelated to it being already installed. -/
def installFailBackend : Backend where
  connectErr := fun _ _ _ => none
  execErr := fun _ sql =>
    if sql = installHttpfsSql then some "IO Error: disk full" else none
  fetchErr := fun _ _ => none
  fetchOut := fun _ _ => "table"

/-- A backend where loading the httpfs extension fails. -/
def loadFailBackend : Backend where
  connectErr := fun _ _ _ => none
  execErr := fun _ sql =>
    if sql = loadHttpfsSql then some "IO Error: extension load failed" else none
  fetchErr := fun _ _ => none
  fetchOut := fun _ _ => "table"

/-- A backend where the statement `"BROKEN SQL"` raises and everything else
succeeds. -/
def execFailBackend : Backend where
  connectErr := fun _ _ _ => none
  execErr := fun _ sql =>
    if sql = "BROKEN SQL" then
      some "Parser Error: syntax error at or near BROKEN"
    else none
  fetchErr := fun _ _ => none
  fetchOut := fun _ _ => "table"

/-- A backend where fetching results raises and everything else succeeds. -/
def fetchFailBackend : Backend where
  connectErr := fun _ _ _ => none
  execErr := fun _ _ => none
  fetchErr := fun _ _ => some "Invalid Error: result set was closed"
  fetchOut := fun _ _ => "table"

/-- A backend where every connection attempt fails. -/
def connectFailBackend : Backend where
  connectErr := fun _ _ _ => some "IO Error: unable to open database file"
  execErr := fun _ _ => none
  fetchErr := fun _ _ => none
  fetchOut := fun _ _ => "table"

/-! ### C1 -/

/-- C1: For an s3 target, when the read-only attach fails with a message
containing "database does not exist" and read-only was not requested,
initialization retries the attach without the READ_ONLY qualifier (creating
the database) and switches context to it with `USE s3db;`, succeeding; when
read-only is requested, initialization of an s3 target fails without
performing any attach, so in particular without any retry. -/
theorem C1_s3_missing_database_retry (b : Backend) (p : String)
    (rg : Option String) (e : String)
    (hconn : b.connectErr memAddr none false = none)
    (hload : b.execErr memAddr loadHttpfsSql = none)
    (hROfail : b.execErr memAddr (attachReadOnlySql p) = some e)
    (hmsg : strContains e "database does not exist" = true)
    (hattach : b.execErr memAddr (attachWriteSql p) = none)
    (huse : b.execErr memAddr useS3dbSql = none) :
    initialize_connection b p .s3 false none none rg
      = (.ok (some memAddr),
         [Event.connect memAddr none false,
          Event.exec memAddr installHttpfsSql,
          Event.exec memAddr loadHttpfsSql,
          Event.exec memAddr (attachReadOnlySql p),
          Event.exec memAddr (attachWriteSql p),
          Event.exec memAddr useS3dbSql])
    ∧ initialize_connection b p .s3 true none none rg
      = (.error s3ReadOnlyErrMsg, []) := by
  constructor
  · simp [initialize_connection, s3AttachBlock, andThen, pConnect, pExec,
      pClose, swallow, truthy, hconn, hload, hROfail, hmsg, hattach, huse]
  · simp [initialize_connection]

theorem C1_s3_missing_database_retry_witness :
    initialize_connection s3MissingBackend "s3://bucket/db.duckdb" .s3 false
        none none none
      = (.ok (some memAddr),
         [Event.connect memAddr none false,
          Event.exec memAddr installHttpfsSql,
          Event.exec memAddr loadHttpfsSql,
          Event.exec memAddr (attachReadOnlySql "s3://bucket/db.duckdb"),
          Event.exec memAddr (attachWriteSql "s3://bucket/db.duckdb"),
          Event.exec memAddr useS3dbSql])
    ∧ initialize_connection s3MissingBackend "s3://bucket/db.duckdb" .s3 true
        none none none
      = (.error s3ReadOnlyErrMsg, []) :=
  C1_s3_missing_database_retry s3MissingBackend "s3://bucket/db.duckdb" none
    "IO Error: database does not exist" rfl rfl rfl (by decide) rfl rfl

/-! ### C2 -/

/-- C2: For a local (duckdb) target with read-only requested, initialization
opens a read-only connection carrying the client user agent, runs `SELECT 1`,
closes the connection, and returns an absent handle; a subsequent execute
call with the absent handle opens a fresh read-only connection against the
resolved path, runs the query, and closes that connection before returning
the fetched output. -/
theorem C2_local_readonly_short_lived (b : Backend) (p q : String)
    (hconn : b.connectErr p (some clientUserAgent) true = none)
    (hsel : b.execErr p selectOneSql = none)
    (hq : b.execErr p q = none)
    (hfetch : b.fetchErr p q = none) :
    initialize_connection b p .duckdb true none none none
      = (.ok none,
         [Event.connect p (some clientUserAgent) true,
          Event.exec p selectOneSql,
          Event.close p])
    ∧ execute b none p true q
      = (.ok (b.fetchOut p q),
         [Event.connect p (some clientUserAgent) true,
          Event.exec p q,
          Event.close p]) := by
  constructor
  · simp [initialize_connection, andThen, pConnect, pExec, pClose, hconn, hsel]
  · simp [execute, andThen, pConnect, pExec, pFetch, pClose, hconn, hq, hfetch]

theorem C2_local_readonly_short_lived_witness :
    initialize_connection okBackend "local.db" .duckdb true none none none
      = (.ok none,
         [Event.connect "local.db" (some clientUserAgent) true,
          Event.exec "local.db" selectOneSql,
          Event.close "local.db"])
    ∧ execute okBackend none "local.db" true "SELECT 42"
      = (.ok (okBackend.fetchOut "local.db" "SELECT 42"),
         [Event.connect "local.db" (some clientUserAgent) true,
          Event.exec "local.db" "SELECT 42",
          Event.close "local.db"]) :=
  C2_local_readonly_short_lived okBackend "local.db" "SELECT 42" rfl rfl rfl rfl

/-! ### C7 -/

/-- C7: For any path starting with `"md:"`, when no token argument is given
and the `motherduck_token` environment variable is unset, resolution fails
with the configuration error message, which names both the environment
variable and the command-line argument as remedies. -/
theorem C7_md_token_required (p : String) (saas : Bool)
    (hp : pyStartswith p "md:" = true) :
    resolve_db_path_type p none none saas = .error tokenErrMsg
    ∧ strContains tokenErrMsg "environment variable" = true
    ∧ strContains tokenErrMsg "argument" = true := by
  refine ⟨?_, by decide, by decide⟩
  simp [resolve_db_path_type, md_prefix_not_s3 p hp, hp, truthy]

theorem C7_md_token_required_witness :
    resolve_db_path_type "md:mydb" none none false = .error tokenErrMsg
    ∧ strContains tokenErrMsg "environment variable" = true
    ∧ strContains tokenErrMsg "argument" = true :=
  C7_md_token_required "md:mydb" false (by decide)

/-! ### C8 -/

/-- C8: Whenever the internal execution fails with some message, the public
query operation fails with the wrapped message, which contains the original
diagnostic text. -/
theorem C8_query_wraps_execution_failure (b : Backend) (conn : Option String)
    (p q e : String) (ro : Bool)
    (h : (execute b conn p ro q).1 = .error e) :
    (query b conn p ro q).1 = .error (queryErrorHeader ++ e)
    ∧ strContains (queryErrorHeader ++ e) e = true := by
  refine ⟨?_, strContains_append_self queryErrorHeader e⟩
  unfold query
  rcases hx : execute b conn p ro q with ⟨r, tr⟩
  rw [hx] at h
  cases r with
  | ok v => simp at h
  | error e2 =>
    simp at h
    subst h
    rfl

theorem C8_query_wraps_execution_failure_witness :
    (query execFailBackend (some "local.db") "local.db" false "BROKEN SQL").1
      = .error (queryErrorHeader ++ "Parser Error: syntax error at or near BROKEN")
    ∧ strContains
        (queryErrorHeader ++ "Parser Error: syntax error at or near BROKEN")
        "Parser Error: syntax error at or near BROKEN" = true :=
  C8_query_wraps_execution_failure execFailBackend (some "local.db") "local.db"
    "BROKEN SQL" "Parser Error: syntax error at or near BROKEN" false rfl

/-! ### C10 -/

/-- C10: With an absent handle, a failure to open the short-lived connection
itself is caught by the public query operation and surfaced with the
query-error wrapping prepended to the backend message — the result is the
wrapped message, which differs from the raw backend (connection) error. -/
theorem C10_connect_failure_wrapped (b : Backend) (p q e : String) (ro : Bool)
    (h : b.connectErr p (some clientUserAgent) ro = some e) :
    query b none p ro q
      = (.error (queryErrorHeader ++ e),
         [Event.connect p (some clientUserAgent) ro])
    ∧ queryErrorHeader ++ e ≠ e := by
  refine ⟨?_, queryErrorHeader_append_ne e⟩
  simp [query, execute, andThen, pConnect, h]

theorem C10_connect_failure_wrapped_witness :
    query connectFailBackend none "local.db" true "SELECT 42"
      = (.error (queryErrorHeader ++ "IO Error: unable to open database file"),
         [Event.connect "local.db" (some clientUserAgent) true])
    ∧ queryErrorHeader ++ "IO Error: unable to open database file"
        ≠ "IO Error: unable to open database file" :=
  C10_connect_failure_wrapped connectFailBackend "local.db" "SELECT 42"
    "IO Error: unable to open database file" true rfl

/-! ### C3 -/

/-- C3 counterexample: the extension installation fails with
`"IO Error: disk full"`, whose text does not contain `"already installed"`,
yet s3 initialization swallows the failure and succeeds — refuting that every
installation failure other than already-installed propagates. -/
theorem C3_counterexample :
    installFailBackend.execErr memAddr installHttpfsSql
        = some "IO Error: disk full"
    ∧ strContains "IO Error: disk full" "already installed" = false
    ∧ (initialize_connection installFailBackend "s3://bucket/data.db" .s3
        false none none none).1 = .ok (some memAddr) :=
  ⟨rfl, by decide, rfl⟩

/-- C3 amended: during s3 initialization an extension installation failure is
silently ignored whatever its message (`ei` is arbitrary here), while a
failure to load the extension propagates (whatever the installation did,
`b2`'s installation response is unconstrained). -/
theorem C3_install_failure_always_swallowed (b b2 : Backend) (p : String)
    (rg : Option String) (ei e2 : String)
    (hconn : b.connectErr memAddr none false = none)
    (hinstall : b.execErr memAddr installHttpfsSql = some ei)
    (hload : b.execErr memAddr loadHttpfsSql = none)
    (hRO : b.execErr memAddr (attachReadOnlySql p) = none)
    (huse : b.execErr memAddr useS3dbSql = none)
    (hconn2 : b2.connectErr memAddr none false = none)
    (hload2 : b2.execErr memAddr loadHttpfsSql = some e2) :
    initialize_connection b p .s3 false none none rg
      = (.ok (some memAddr),
         [Event.connect memAddr none false,
          Event.exec memAddr installHttpfsSql,
          Event.exec memAddr loadHttpfsSql,
          Event.exec memAddr (attachReadOnlySql p),
          Event.exec memAddr useS3dbSql])
    ∧ initialize_connection b2 p .s3 false none none rg
      = (.error e2,
         [Event.connect memAddr none false,
          Event.exec memAddr installHttpfsSql,
          Event.exec memAddr loadHttpfsSql]) := by
  constructor
  · simp [initialize_connection, s3AttachBlock, andThen, pConnect, pExec,
      pClose, swallow, truthy, hconn, hload, hRO, huse]
  · simp [initialize_connection, andThen, pConnect, pExec, swallow, truthy,
      hconn2, hload2]

theorem C3_install_failure_always_swallowed_witness :
    initialize_connection installFailBackend "s3://bucket/data.db" .s3 false
        none none none
      = (.ok (some memAddr),
         [Event.connect memAddr none false,
          Event.exec memAddr installHttpfsSql,
          Event.exec memAddr loadHttpfsSql,
          Event.exec memAddr (attachReadOnlySql "s3://bucket/data.db"),
          Event.exec memAddr useS3dbSql])
    ∧ initialize_connection loadFailBackend "s3://bucket/data.db" .s3 false
        none none none
      = (.error "IO Error: extension load failed",
         [Event.connect memAddr none false,
          Event.exec memAddr installHttpfsSql,
          Event.exec memAddr loadHttpfsSql]) :=
  C3_install_failure_always_swallowed installFailBackend loadFailBackend
    "s3://bucket/data.db" none "IO Error: disk full"
    "IO Error: extension load failed" rfl rfl rfl rfl rfl rfl rfl

/-! ### C4 -/

/-- C4 counterexample: with an absent handle, when the submitted query
raises, execute returns the error with a trace containing the connect and the
failed statement but no close event — the short-lived connection is not
closed on this error path. -/
theorem C4_counterexample :
    execute execFailBackend none "local.db" true "BROKEN SQL"
      = (.error "Parser Error: syntax error at or near BROKEN",
         [Event.connect "local.db" (some clientUserAgent) true,
          Event.exec "local.db" "BROKEN SQL"])
    ∧ Event.close "local.db" ∉
        (execute execFailBackend none "local.db" true "BROKEN SQL").2 :=
  ⟨rfl, by decide⟩

/-- C4 amended: in per-call ephemeral mode the short-lived connection is
closed before returning on the success path only; when query execution or
result fetching raises, the call returns with the connection left unclosed
(no close event in the trace). -/
theorem C4_ephemeral_close_on_success_only (b bq bf : Backend)
    (p q e1 e2 : String) (ro : Bool)
    (hconn : b.connectErr p (some clientUserAgent) ro = none)
    (hq : b.execErr p q = none)
    (hfetch : b.fetchErr p q = none)
    (hconnq : bq.connectErr p (some clientUserAgent) ro = none)
    (hqfail : bq.execErr p q = some e1)
    (hconnf : bf.connectErr p (some clientUserAgent) ro = none)
    (hqf : bf.execErr p q = none)
    (hfetchfail : bf.fetchErr p q = some e2) :
    execute b none p ro q
      = (.ok (b.fetchOut p q),
         [Event.connect p (some clientUserAgent) ro,
          Event.exec p q,
          Event.close p])
    ∧ execute bq none p ro q
      = (.error e1,
         [Event.connect p (some clientUserAgent) ro, Event.exec p q])
    ∧ Event.close p ∉ (execute bq none p ro q).2
    ∧ execute bf none p ro q
      = (.error e2,
         [Event.connect p (some clientUserAgent) ro, Event.exec p q])
    ∧ Event.close p ∉ (execute bf none p ro q).2 := by
  refine ⟨?_, ?_, ?_, ?_, ?_⟩ <;>
  simp [execute, andThen, pConnect, pExec, pFetch, pClose, hconn, hq, hfetch,
    hconnq, hqfail, hconnf, hqf, hfetchfail]

theorem C4_ephemeral_close_on_success_only_witness :
    execute okBackend none "local.db" true "BROKEN SQL"
      = (.ok (okBackend.fetchOut "local.db" "BROKEN SQL"),
         [Event.connect "local.db" (some clientUserAgent) true,
          Event.exec "local.db" "BROKEN SQL",
          Event.close "local.db"])
    ∧ execute execFailBackend none "local.db" true "BROKEN SQL"
      = (.error "Parser Error: syntax error at or near BROKEN",
         [Event.connect "local.db" (some clientUserAgent) true,
          Event.exec "local.db" "BROKEN SQL"])
    ∧ Event.close "local.db" ∉
        (execute execFailBackend none "local.db" true "BROKEN SQL").2
    ∧ execute fetchFailBackend none "local.db" true "BROKEN SQL"
      = (.error "Invalid Error: result set was closed",
         [Event.connect "local.db" (some clientUserAgent) true,
          Event.exec "local.db" "BROKEN SQL"])
    ∧ Event.close "local.db" ∉
        (execute fetchFailBackend none "local.db" true "BROKEN SQL").2 :=
  C4_ephemeral_close_on_success_only okBackend execFailBackend
    fetchFailBackend "local.db" "BROKEN SQL"
    "Parser Error: syntax error at or near BROKEN"
    "Invalid Error: result set was closed" true rfl rfl rfl rfl rfl rfl rfl rfl

/-! ### C5 -/

/-- C5 counterexample: with the token taken from the environment and saasMode
set, resolution appends only the token — the SaaS-mode flag is missing from
the resolved address, refuting the claim that it is appended whenever the
token is available and saasMode is set. -/
theorem C5_counterexample :
    resolve_db_path_type "md:db" none (some "ENVTOK") true
      = .ok ("md:db?motherduck_token=ENVTOK", .motherduck)
    ∧ "md:db?motherduck_token=ENVTOK"
        ≠ "md:db?motherduck_token=ENVTOK&saas_mode=true" :=
  ⟨rfl, by decide⟩

/-- C5 amended: with a non-empty explicit token argument, the resolved
address carries the token and, exactly when saasMode is set, the SaaS-mode
flag; when the token comes from the environment variable instead, only the
token is appended, regardless of saasMode. -/
theorem C5_saas_flag_explicit_token_only (p tok etok : String)
    (env : Option String) (saas : Bool)
    (hp : pyStartswith p "md:" = true)
    (htok : tok ≠ "") (hetok : etok ≠ "") :
    resolve_db_path_type p (some tok) env true
      = .ok (p ++ "?motherduck_token=" ++ tok ++ "&saas_mode=true",
             .motherduck)
    ∧ resolve_db_path_type p (some tok) env false
      = .ok (p ++ "?motherduck_token=" ++ tok, .motherduck)
    ∧ resolve_db_path_type p none (some etok) saas
      = .ok (p ++ "?motherduck_token=" ++ etok, .motherduck) := by
  refine ⟨?_, ?_, ?_⟩ <;>
  simp [resolve_db_path_type, md_prefix_not_s3 p hp, hp, truthy, htok, hetok]

theorem C5_saas_flag_explicit_token_only_witness :
    resolve_db_path_type "md:db" (some "T") none true
      = .ok ("md:db?motherduck_token=T&saas_mode=true", .motherduck)
    ∧ resolve_db_path_type "md:db" (some "T") none false
      = .ok ("md:db?motherduck_token=T", .motherduck)
    ∧ resolve_db_path_type "md:db" none (some "E") false
      = .ok ("md:db?motherduck_token=E", .motherduck) :=
  C5_saas_flag_explicit_token_only "md:db" "T" "E" none false (by decide)
    (by decide) (by decide)

/-! ### C9 -/

/-- C9 counterexample: the constructor is given `home_dir = some ""` — a
supplied argument — yet `HOME` keeps its prior value, because the code tests
Python truthiness (`if home_dir:`) rather than presence. -/
theorem C9_counterexample :
    (clientInit okBackend ":memory:" none (some "") false false none
        (some "/home/original") none none none).homeAfter
      = some "/home/original"
    ∧ some "/home/original" ≠ (some "" : Option String) :=
  ⟨rfl, by decide⟩

/-- C9 amended: when a non-empty home_dir is supplied, `HOME` is overwritten
with it before any connection event (the setHome event heads the trace) and
is never restored — the final `HOME` is the supplied value whether or not
initialization succeeds; when home_dir is absent (or empty), `HOME` is left
unchanged. -/
theorem C9_home_overwritten_when_truthy (b : Backend) (p h : String)
    (tok etok env_HOME ak sk rg : Option String) (saas ro : Bool)
    (addr : String) (ty : DBType)
    (hres : resolve_db_path_type p tok etok saas = .ok (addr, ty))
    (hne : h ≠ "") :
    (clientInit b p tok (some h) saas ro etok env_HOME ak sk rg).homeAfter
      = some h
    ∧ (clientInit b p tok (some h) saas ro etok env_HOME ak sk rg).trace
      = Event.setHome h :: (initialize_connection b addr ty ro ak sk rg).2
    ∧ (clientInit b p tok none saas ro etok env_HOME ak sk rg).homeAfter
      = env_HOME
    ∧ (clientInit b p tok none saas ro etok env_HOME ak sk rg).trace
      = (initialize_connection b addr ty ro ak sk rg).2 := by
  unfold clientInit
  rw [hres]
  rcases hinit : initialize_connection b addr ty ro ak sk rg with ⟨r, tr⟩
  cases r <;> simp [truthy, hne, hinit]

theorem C9_home_overwritten_when_truthy_witness :
    (clientInit okBackend "local.db" none (some "/new/home") false false none
        (some "/home/original") none none none).homeAfter = some "/new/home"
    ∧ (clientInit okBackend "local.db" none (some "/new/home") false false
        none (some "/home/original") none none none).trace
      = Event.setHome "/new/home" ::
          (initialize_connection okBackend "local.db" .duckdb false none none
            none).2
    ∧ (clientInit okBackend "local.db" none none false false none
        (some "/home/original") none none none).homeAfter
      = some "/home/original"
    ∧ (clientInit okBackend "local.db" none none false false none
        (some "/home/original") none none none).trace
      = (initialize_connection okBackend "local.db" .duckdb false none none
          none).2 :=
  C9_home_overwritten_when_truthy okBackend "local.db" "/new/home" none none
    (some "/home/original") none none none false false "local.db" .duckdb rfl
    (by decide)

/-! ### C6 -/

/-- The trace of an attach-then-use sequence holds only the two exec events. -/
theorem mem_two_execs {b : Backend} {a1 s1 s2 : String} {e : Event}
    (h : e ∈ (andThen (pExec b a1 s1) (fun _ => pExec b a1 s2)).2) :
    e = Event.exec a1 s1 ∨ e = Event.exec a1 s2 := by
  rcases mem_andThen h with h1 | ⟨_, h1⟩
  · simp [pExec] at h1
    exact Or.inl h1
  · simp [pExec] at h1
    exact Or.inr h1

/-- Every event of the s3 attach block is one of its three statements. -/
theorem s3AttachBlock_events {b : Backend} {p : String} {ro : Bool} {e : Event}
    (h : e ∈ (s3AttachBlock b p ro).2) :
    e = Event.exec memAddr (attachReadOnlySql p)
    ∨ e = Event.exec memAddr useS3dbSql
    ∨ e = Event.exec memAddr (attachWriteSql p) := by
  unfold s3AttachBlock at h
  split at h
  case h_1 a tr heq =>
    have htr : ∀ x ∈ tr, x = Event.exec memAddr (attachReadOnlySql p)
        ∨ x = Event.exec memAddr useS3dbSql := by
      intro x hx
      have hx2 : x ∈ (andThen (pExec b memAddr (attachReadOnlySql p))
          (fun _ => pExec b memAddr useS3dbSql)).2 := by
        rw [heq]; exact hx
      exact mem_two_execs hx2
    rcases htr e h with h2 | h2
    · exact Or.inl h2
    · exact Or.inr (Or.inl h2)
  case h_2 err tr heq =>
    have htr : ∀ x ∈ tr, x = Event.exec memAddr (attachReadOnlySql p)
        ∨ x = Event.exec memAddr useS3dbSql := by
      intro x hx
      have hx2 : x ∈ (andThen (pExec b memAddr (attachReadOnlySql p))
          (fun _ => pExec b memAddr useS3dbSql)).2 := by
        rw [heq]; exact hx
      exact mem_two_execs hx2
    split at h
    · split at h
      case h_1 a2 tr2 heq2 =>
        have htr2 : ∀ x ∈ tr2, x = Event.exec memAddr (attachWriteSql p)
            ∨ x = Event.exec memAddr useS3dbSql := by
          intro x hx
          have hx2 : x ∈ (andThen (pExec b memAddr (attachWriteSql p))
              (fun _ => pExec b memAddr useS3dbSql)).2 := by
            rw [heq2]; exact hx
          exact mem_two_execs hx2
        rcases List.mem_append.mp h with hx | hx
        · rcases htr e hx with h3 | h3
          · exact Or.inl h3
          · exact Or.inr (Or.inl h3)
        · rcases htr2 e hx with h3 | h3
          · exact Or.inr (Or.inr h3)
          · exact Or.inr (Or.inl h3)
      case h_2 e2 tr2 heq2 =>
        have htr2 : ∀ x ∈ tr2, x = Event.exec memAddr (attachWriteSql p)
            ∨ x = Event.exec memAddr useS3dbSql := by
          intro x hx
          have hx2 : x ∈ (andThen (pExec b memAddr (attachWriteSql p))
              (fun _ => pExec b memAddr useS3dbSql)).2 := by
            rw [heq2]; exact hx
          exact mem_two_execs hx2
        rcases List.mem_append.mp h with hx | hx
        · rcases htr e hx with h3 | h3
          · exact Or.inl h3
          · exact Or.inr (Or.inl h3)
        · rcases htr2 e hx with h3 | h3
          · exact Or.inr (Or.inr h3)
          · exact Or.inr (Or.inl h3)
    · rcases htr e h with h2 | h2
      · exact Or.inl h2
      · exact Or.inr (Or.inl h2)

/-- Any connect event of initialization either carries the client user agent,
or is the bare in-memory connect of an s3 target. -/
theorem initialize_connect_user_agent {b : Backend} {p : String} {ty : DBType}
    {ro ro2 : Bool} {ak sk rg : Option String} {addr : String}
    {ua : Option String}
    (h : Event.connect addr ua ro2
      ∈ (initialize_connection b p ty ro ak sk rg).2) :
    ua = some clientUserAgent ∨ (ty = .s3 ∧ addr = memAddr ∧ ua = none) := by
  cases ty <;> cases ro <;> simp only [initialize_connection] at h
  case s3.true => simp at h
  case s3.false =>
    rcases mem_andThen h with h1 | ⟨_, h1⟩
    · simp [pConnect] at h1
      exact Or.inr ⟨rfl, h1.1, h1.2.1⟩
    · rcases mem_andThen h1 with h2 | ⟨_, h2⟩
      · simp [swallow, pExec] at h2
      · rcases mem_andThen h2 with h3 | ⟨_, h3⟩
        · simp [pExec] at h3
        · rcases mem_andThen h3 with h4 | ⟨_, h4⟩
          · by_cases hc : (truthy ak && truthy sk) = true
            · rw [if_pos hc] at h4
              simp [pExec] at h4
            · rw [if_neg hc] at h4
              simp at h4
          · rcases mem_andThen h4 with h5 | ⟨_, h5⟩
            · rcases s3AttachBlock_events h5 with h6 | h6 | h6 <;> simp at h6
            · simp at h5
  all_goals {
    first
    | (rcases mem_andThen h with h1 | ⟨_, h1⟩
       · simp [pConnect] at h1
         exact Or.inl h1.2.1
       · rcases mem_andThen h1 with h2 | ⟨_, h2⟩
         · simp [pExec] at h2
         · rcases mem_andThen h2 with h3 | ⟨_, h3⟩
           · simp [pClose] at h3
           · simp at h3)
    | (rcases mem_andThen h with h1 | ⟨_, h1⟩
       · simp [pConnect] at h1
         exact Or.inl h1.2.1
       · simp at h1)
  }

/-- Every connect event of execute carries the client user agent. -/
theorem execute_connect_user_agent {b : Backend} {conn : Option String}
    {p q addr : String} {ro ro2 : Bool} {ua : Option String}
    (h : Event.connect addr ua ro2 ∈ (execute b conn p ro q).2) :
    ua = some clientUserAgent := by
  cases conn with
  | none =>
    simp only [execute] at h
    rcases mem_andThen h with h1 | ⟨_, h1⟩
    · simp [pConnect] at h1
      exact h1.2.1
    · rcases mem_andThen h1 with h2 | ⟨_, h2⟩
      · simp [pExec] at h2
      · rcases mem_andThen h2 with h3 | ⟨_, h3⟩
        · simp [pFetch] at h3
        · rcases mem_andThen h3 with h4 | ⟨_, h4⟩
          · simp [pClose] at h4
          · simp at h4
  | some a =>
    simp only [execute] at h
    rcases mem_andThen h with h1 | ⟨_, h1⟩
    · simp [pExec] at h1
    · rcases mem_andThen h1 with h2 | ⟨_, h2⟩
      · simp [pFetch] at h2
      · simp at h2

/-- C6 counterexample: the in-memory connection opened during s3
initialization carries no config at all — its connect event has user agent
`none`, not the fixed client identifier. -/
theorem C6_counterexample :
    Event.connect memAddr none false
      ∈ (initialize_connection okBackend "s3://bucket/data.db" .s3 false none
          none none).2
    ∧ (none : Option String) ≠ some clientUserAgent :=
  ⟨by decide, by decide⟩

/-- C6 amended: every connection attempt of initialization passes the fixed
client identifier, except the in-memory connection opened for an s3 target,
which passes no identifier at all; every connection attempt of execute
passes the fixed client identifier. -/
theorem C6_user_agent_on_connections (b : Backend) (p q addr1 addr2 : String)
    (ty : DBType) (ro ro2 ro3 : Bool) (ak sk rg conn : Option String)
    (ua1 ua2 : Option String)
    (h1 : Event.connect addr1 ua1 ro2
      ∈ (initialize_connection b p ty ro ak sk rg).2)
    (h2 : Event.connect addr2 ua2 ro3 ∈ (execute b conn p ro q).2) :
    (ua1 = some clientUserAgent ∨ (ty = .s3 ∧ addr1 = memAddr ∧ ua1 = none))
    ∧ ua2 = some clientUserAgent :=
  ⟨initialize_connect_user_agent h1, execute_connect_user_agent h2⟩

theorem C6_user_agent_on_connections_witness :
    ((some clientUserAgent : Option String) = some clientUserAgent
      ∨ (DBType.duckdb = .s3 ∧ "local.db" = memAddr
          ∧ (some clientUserAgent : Option String) = none))
    ∧ (some clientUserAgent : Option String) = some clientUserAgent :=
  C6_user_agent_on_connections okBackend "local.db" "SELECT 42" "local.db"
    "local.db" .duckdb true true true none none none none
    (some clientUserAgent) (some clientUserAgent) (by decide) (by decide)

end MotherDuck
